import Mathlib

/-!
Verification of the SVG Icon Downloader repository.

The repository holds two revisions of one React component:
* `src/src/App.jsx` — the current revision: `handlePaste` reads the clipboard
  text from the event payload and calls `downloadSvg` with it directly.
* `src/unnamed/part_000` — an earlier revision: `handlePaste` only sets a
  flag, and a `useEffect` with a 100 ms `setTimeout` later reads `svgCode`
  from state and calls `handleDownload`.

The embedding below models the string operations used by the code
(ECMAScript `String.prototype.trim` and `String.prototype.startsWith`),
the export function as a pure function from its input text and the host
environment (anchor element present or absent, host `click()` call normal
or raising an exception) to a record of its observable effects, and the
component as a state machine over `AppState` driven by edit, paste and
manual-download actions.
-/

namespace SvgDownloader

/-- Whitespace recognised by ECMAScript `String.prototype.trim`: the
WhiteSpace and LineTerminator code points.  The exotic `Space_Separator`
code points beyond NBSP are omitted; no text in this development uses
them. -/
def isJsSpace (c : Char) : Bool :=
  c == ' ' || c == '\t' || c == '\n' || c == '\r' || c == '\x0b' ||
  c == '\x0c' || c == '\u00a0' || c == '\ufeff' || c == '\u2028' || c == '\u2029'

/-- Model of ECMAScript `text.trim()`: remove leading and trailing
whitespace. -/
def jsTrim (s : String) : String :=
  ⟨((s.data.dropWhile isJsSpace).reverse.dropWhile isJsSpace).reverse⟩

/-- Model of ECMAScript `s.startsWith(pat)`. -/
def jsStartsWith (s pat : String) : Bool :=
  pat.data.isPrefixOf s.data

/-- The validation guard of `downloadSvg` in `src/src/App.jsx`, line 22:
`!codeToDownload || !codeToDownload.trim().startsWith('<svg')` (a JS
string is falsy exactly when it is empty).  `true` means the export is
rejected. -/
def downloadGuardRejects (codeToDownload : String) : Bool :=
  codeToDownload == "" || !(jsStartsWith (jsTrim codeToDownload) "<svg")

/-- The validation guard of `handleDownload` in `src/unnamed/part_000`,
line 41: `!svgCode.trim() || !svgCode.trim().startsWith('<svg')`. -/
def handleDownloadRejectsA (svgCode : String) : Bool :=
  jsTrim svgCode == "" || !(jsStartsWith (jsTrim svgCode) "<svg")

/-- Modelled from the spec, section 4.1 (refinement side): `true` iff the
text, with leading and trailing whitespace removed, is non-empty and
starts with the case-sensitive literal `<svg`. -/
def isPlausibleSvg (text : String) : Bool :=
  !(jsTrim text == "") && jsStartsWith (jsTrim text) "<svg"

/-- An immutable byte buffer with a MIME tag: `new Blob([text], type)`. -/
structure Blob where
  content : String
  mime : String
  deriving DecidableEq

/-- A save action triggered through the hidden anchor: the byte content
the object URL points to and the suggested filename. -/
structure SaveAction where
  content : String
  filename : String
  deriving DecidableEq

/-- Observable effects of one call to the export function.
`requested` is the text the exporter was invoked with; `ok` is whether
the validation guard passed; `errorAfter` is the value `setError` leaves
behind; `urlAllocated` and `urlReleased` record `URL.createObjectURL` and
`URL.revokeObjectURL`; `saves` lists the download clicks triggered;
`threw` records that the call terminated by a propagating exception. -/
structure ExportOutcome where
  requested : String
  ok : Bool
  errorAfter : String
  blob : Option Blob
  urlAllocated : Bool
  urlReleased : Bool
  saves : List SaveAction
  threw : Bool
  deriving DecidableEq

/-- `downloadSvg` from `src/src/App.jsx`, lines 20 to 44, as a function of
its argument and the host environment.  `anchorPresent` models
`downloadLinkRef.current` being non-null; `clickThrows` models the host
`click()` call raising an exception.  The source has no try/finally, so
when `click()` throws, the exception propagates and the
`URL.revokeObjectURL(url)` on the following line is not executed. -/
def downloadSvg (codeToDownload : String) (anchorPresent clickThrows : Bool) :
    ExportOutcome :=
  if downloadGuardRejects codeToDownload then
    { requested := codeToDownload, ok := false,
      errorAfter := "Please provide valid SVG code starting with <svg>.",
      blob := none, urlAllocated := false, urlReleased := false,
      saves := [], threw := false }
  else
    let blob : Blob := { content := codeToDownload, mime := "image/svg+xml" }
    if anchorPresent then
      if clickThrows then
        { requested := codeToDownload, ok := true, errorAfter := "",
          blob := some blob, urlAllocated := true, urlReleased := false,
          saves := [], threw := true }
      else
        { requested := codeToDownload, ok := true, errorAfter := "",
          blob := some blob, urlAllocated := true, urlReleased := true,
          saves := [{ content := codeToDownload, filename := "icon.svg" }],
          threw := false }
    else
      { requested := codeToDownload, ok := true, errorAfter := "",
        blob := some blob, urlAllocated := true, urlReleased := true,
        saves := [], threw := false }

/-- `handleDownload` from `src/unnamed/part_000`, lines 38 to 65: same
body as `downloadSvg` but reading the state value, with its own guard and
error message. -/
def handleDownloadA (svgCode : String) (anchorPresent clickThrows : Bool) :
    ExportOutcome :=
  if handleDownloadRejectsA svgCode then
    { requested := svgCode, ok := false,
      errorAfter := "Please enter valid SVG code starting with <svg>.",
      blob := none, urlAllocated := false, urlReleased := false,
      saves := [], threw := false }
  else
    let blob : Blob := { content := svgCode, mime := "image/svg+xml" }
    if anchorPresent then
      if clickThrows then
        { requested := svgCode, ok := true, errorAfter := "",
          blob := some blob, urlAllocated := true, urlReleased := false,
          saves := [], threw := true }
      else
        { requested := svgCode, ok := true, errorAfter := "",
          blob := some blob, urlAllocated := true, urlReleased := true,
          saves := [{ content := svgCode, filename := "icon.svg" }],
          threw := false }
    else
      { requested := svgCode, ok := true, errorAfter := "",
        blob := some blob, urlAllocated := true, urlReleased := true,
        saves := [], threw := false }

/-- The deferred check scheduled by the `useEffect` in
`src/unnamed/part_000`, lines 72 to 87, when `downloadOnPaste` is set:
`svgAtCheck` is the value the state holder exposes when the timeout
callback runs.  Returns the export attempts performed and the resulting
error message. -/
def deferredPasteCheck (svgAtCheck : String) (anchorPresent clickThrows : Bool) :
    List ExportOutcome × String :=
  if jsStartsWith (jsTrim svgAtCheck) "<svg" then
    let o := handleDownloadA svgAtCheck anchorPresent clickThrows
    ([o], o.errorAfter)
  else
    ([], "Pasted content is not valid SVG code.")

/-- The `useState` initializer of `svgCode` in `src/src/App.jsx`, line 6:
the default sample icon. -/
def defaultSvgCode : String :=
  "<svg xmlns=\"http://www.w3.org/2000/svg\" width=\"24\" height=\"24\" viewBox=\"0 0 24 24\" fill=\"none\" stroke=\"currentColor\" strokeWidth=\"2\" strokeLinecap=\"round\" strokeLinejoin=\"round\" class=\"lucide lucide-arrow-down-circle\"><circle cx=\"12\" cy=\"12\" r=\"10\"/><path d=\"M12 8v8\"/><path d=\"m8 12 4 4 4-4\"/></svg>"

/-- The two pieces of component state in `src/src/App.jsx`: `svgCode` and
`error`. -/
structure AppState where
  svgCode : String
  error : String
  deriving DecidableEq

/-- Initial state: the default sample icon and an empty error message. -/
def initState : AppState :=
  { svgCode := defaultSvgCode, error := "" }

/-- User-driven events the component handles. -/
inductive Action where
  | edit (newText : String)
  | paste (clipText : String)
  | manualDownload
  deriving DecidableEq

/-- One event-handler step of `src/src/App.jsx`.  In the rendered app the
hidden anchor is always present and the host `click()` does not throw, so
the export runs with `anchorPresent = true` and `clickThrows = false`.
* `edit` is `handleCodeChange`: `setError('')` then `setSvgCode(value)`.
* `paste` is `handlePaste`: `setSvgCode(pastedText)` then
  `downloadSvg(pastedText)`.
* `manualDownload` is `handleManualDownload`: `downloadSvg(svgCode)`.
Returns the new state and the export attempts the step performed. -/
def step (s : AppState) (a : Action) : AppState × List ExportOutcome :=
  match a with
  | Action.edit t => ({ svgCode := t, error := "" }, [])
  | Action.paste t =>
      let o := downloadSvg t true false
      ({ svgCode := t, error := o.errorAfter }, [o])
  | Action.manualDownload =>
      let o := downloadSvg s.svgCode true false
      ({ svgCode := s.svgCode, error := o.errorAfter }, [o])

/-- `true` iff the step performed an export attempt that failed
validation. -/
def stepFailed (s : AppState) (a : Action) : Bool :=
  (step s a).2.any (fun o => !o.ok)

/-- `handlePaste` from `src/src/App.jsx` with the state commit made
explicit: `commitLanded` says whether the `setSvgCode(pastedText)` update
has landed in the state holder by the end of the step.  The argument of
`downloadSvg` is the local `pastedText` value in either case, so the
export does not depend on the commit. -/
def handlePasteTimed (s : AppState) (clip : String) (commitLanded : Bool) :
    AppState × List ExportOutcome :=
  let o := downloadSvg clip true false
  ({ svgCode := if commitLanded then clip else s.svgCode,
     error := o.errorAfter }, [o])

/-- The preview renderer from `src/src/App.jsx`, lines 118 to 121: the
markup is handed to the host via `dangerouslySetInnerHTML` with
`__html: svgCode`, unmodified and with no validation gate. -/
def render (markup : String) : String := markup

/-! ## Helper lemmas -/

/-- A string with the four-character literal as an initial segment is not
empty. -/
theorem jsStartsWith_svg_ne_empty (s : String)
    (h : jsStartsWith s "<svg" = true) : s ≠ "" := by
  intro he
  subst he
  exact absurd h (by decide)

/-- The accepting side of the guard in `downloadSvg`, spelled out. -/
theorem downloadGuardRejects_eq_false_iff (t : String) :
    downloadGuardRejects t = false ↔
      (jsTrim t ≠ "" ∧ jsStartsWith (jsTrim t) "<svg" = true) := by
  unfold downloadGuardRejects
  constructor
  · intro h
    have h' : ¬(t = "") ∧ jsStartsWith (jsTrim t) "<svg" = true := by
      simpa using h
    exact ⟨jsStartsWith_svg_ne_empty _ h'.2, h'.2⟩
  · rintro ⟨hne, hsw⟩
    have ht : t ≠ "" := by
      intro he
      subst he
      exact hne rfl
    simp [hsw, ht]

/-- The two revisions reject exactly the same texts. -/
theorem handleDownloadRejectsA_eq (t : String) :
    handleDownloadRejectsA t = downloadGuardRejects t := by
  unfold handleDownloadRejectsA downloadGuardRejects
  cases hsw : jsStartsWith (jsTrim t) "<svg" with
  | false => simp [hsw]
  | true =>
    have h1 : jsTrim t ≠ "" := jsStartsWith_svg_ne_empty _ hsw
    have h2 : t ≠ "" := by
      intro he
      subst he
      exact h1 rfl
    simp [hsw, h1, h2]

/-- The exporter records exactly the text it was invoked with. -/
theorem downloadSvg_requested (t : String) (a c : Bool) :
    (downloadSvg t a c).requested = t := by
  unfold downloadSvg
  cases h : downloadGuardRejects t <;> cases a <;> cases c <;> simp [h]

/-- The earlier revision's exporter records exactly the text it read. -/
theorem handleDownloadA_requested (t : String) (a c : Bool) :
    (handleDownloadA t a c).requested = t := by
  unfold handleDownloadA
  cases h : handleDownloadRejectsA t <;> cases a <;> cases c <;> simp [h]

/-- An export call leaves a non-empty error message exactly when its
validation guard failed. -/
theorem downloadSvg_error_iff_not_ok (t : String) (a c : Bool) :
    ((downloadSvg t a c).errorAfter ≠ "") ↔ (downloadSvg t a c).ok = false := by
  unfold downloadSvg
  cases h : downloadGuardRejects t <;> cases a <;> cases c <;> simp [h]

/-! ## Claim theorems -/

/-- Claim C2: the validator accepts a text exactly when the text with
leading and trailing whitespace removed is non-empty and starts with the
case-sensitive literal starting tag; both revisions agree, the code guard
coincides with the spec predicate `isPlausibleSvg`, and the concrete
cases from the spec hold: reject the empty string, a whitespace-only
string and an upper-case tag, accept a tag surrounded by whitespace. -/
theorem c2_validator_accepts_iff_trimmed_svg :
    (∀ t : String, downloadGuardRejects t = false ↔
        (jsTrim t ≠ "" ∧ jsStartsWith (jsTrim t) "<svg" = true))
    ∧ (∀ t : String, handleDownloadRejectsA t = downloadGuardRejects t)
    ∧ (∀ t : String, (!(downloadGuardRejects t)) = isPlausibleSvg t)
    ∧ downloadGuardRejects "" = true
    ∧ downloadGuardRejects "   " = true
    ∧ downloadGuardRejects "<SVG></SVG>" = true
    ∧ downloadGuardRejects "<svg></svg>" = false
    ∧ downloadGuardRejects "  <svg/>  " = false := by
  refine ⟨downloadGuardRejects_eq_false_iff, handleDownloadRejectsA_eq, ?_,
    by decide, by decide, by decide, by decide, by decide⟩
  intro t
  unfold downloadGuardRejects isPlausibleSvg
  cases hsw : jsStartsWith (jsTrim t) "<svg" with
  | false => simp [hsw]
  | true =>
    have h1 : jsTrim t ≠ "" := jsStartsWith_svg_ne_empty _ hsw
    have h2 : t ≠ "" := by
      intro he
      subst he
      exact h1 rfl
    simp [hsw, h1, h2]

/-- Claim C1: a paste step performs exactly one export attempt, and the
text handed to the exporter is exactly the clipboard text of the event,
whether or not the state commit has landed by then. -/
theorem c1_paste_export_uses_clipboard_text :
    ∀ (s : AppState) (clip : String) (commitLanded : Bool),
      (handlePasteTimed s clip commitLanded).2.map ExportOutcome.requested
        = [clip]
      ∧ (step s (Action.paste clip)).2.map ExportOutcome.requested = [clip] := by
  intro s clip b
  constructor <;> simp [handlePasteTimed, step, downloadSvg_requested]

/-- Claim C3: for every text the validator accepts, the export succeeds:
the blob byte content equals the input exactly, tagged image/svg+xml, one
save action with filename icon.svg is triggered, the error message is
left empty and the call returns normally. -/
theorem c3_export_success_artifact (t : String)
    (h : downloadGuardRejects t = false) :
    (downloadSvg t true false).ok = true
    ∧ (downloadSvg t true false).blob =
        some { content := t, mime := "image/svg+xml" }
    ∧ (downloadSvg t true false).saves =
        [{ content := t, filename := "icon.svg" }]
    ∧ (downloadSvg t true false).errorAfter = ""
    ∧ (downloadSvg t true false).threw = false := by
  simp [downloadSvg, h]

/-- Witness for claim C3 at the concrete input from the spec. -/
theorem c3_export_success_artifact_witness :
    downloadGuardRejects "<svg><circle/></svg>" = false
    ∧ ((downloadSvg "<svg><circle/></svg>" true false).ok = true
      ∧ (downloadSvg "<svg><circle/></svg>" true false).blob =
          some { content := "<svg><circle/></svg>", mime := "image/svg+xml" }
      ∧ (downloadSvg "<svg><circle/></svg>" true false).saves =
          [{ content := "<svg><circle/></svg>", filename := "icon.svg" }]
      ∧ (downloadSvg "<svg><circle/></svg>" true false).errorAfter = ""
      ∧ (downloadSvg "<svg><circle/></svg>" true false).threw = false) :=
  ⟨by decide, c3_export_success_artifact "<svg><circle/></svg>" (by decide)⟩

/-- Claim C4: for every text the validator rejects, in every host
environment, the export fails: no blob is created, no object URL is
allocated, no save action is triggered and the error message is
non-empty. -/
theorem c4_export_invalid_rejected (t : String) (a c : Bool)
    (h : downloadGuardRejects t = true) :
    (downloadSvg t a c).ok = false
    ∧ (downloadSvg t a c).blob = none
    ∧ (downloadSvg t a c).urlAllocated = false
    ∧ (downloadSvg t a c).saves = []
    ∧ (downloadSvg t a c).errorAfter ≠ "" := by
  refine ⟨?_, ?_, ?_, ?_, ?_⟩ <;> simp [downloadSvg, h]

/-- Witness for claim C4 at the concrete input from the spec. -/
theorem c4_export_invalid_rejected_witness :
    downloadGuardRejects "not svg" = true
    ∧ ((downloadSvg "not svg" true false).ok = false
      ∧ (downloadSvg "not svg" true false).blob = none
      ∧ (downloadSvg "not svg" true false).urlAllocated = false
      ∧ (downloadSvg "not svg" true false).saves = []
      ∧ (downloadSvg "not svg" true false).errorAfter ≠ "") :=
  ⟨by decide, c4_export_invalid_rejected "not svg" true false (by decide)⟩

/-- Counterexample to claim C5: on a validator-accepted input, with the
anchor present and the host click call throwing, the call allocates the
object URL, terminates by the propagating exception and never releases
the URL — the source has no try/finally around the click, so release is
not unconditional. -/
theorem c5_url_release_counterexample :
    (downloadSvg "<svg/>" true true).urlAllocated = true
    ∧ (downloadSvg "<svg/>" true true).urlReleased = false
    ∧ (downloadSvg "<svg/>" true true).threw = true := by decide

/-- Claim C5, amended: on every exit path on which the call completes
normally — including the path where the anchor is absent and no save is
triggered — the object URL is released exactly when it was allocated;
only a click call that throws skips the release. -/
theorem c5_url_release_normal_exit (t : String) (a c : Bool)
    (h : (downloadSvg t a c).threw = false) :
    (downloadSvg t a c).urlReleased = (downloadSvg t a c).urlAllocated := by
  unfold downloadSvg at h ⊢
  cases hg : downloadGuardRejects t <;> cases a <;> cases c <;>
    simp [hg] at h ⊢

/-- Witness for the amended claim C5 at a concrete input. -/
theorem c5_url_release_normal_exit_witness :
    (downloadSvg "<svg/>" true false).threw = false
    ∧ (downloadSvg "<svg/>" true false).urlReleased =
        (downloadSvg "<svg/>" true false).urlAllocated :=
  ⟨by decide, c5_url_release_normal_exit "<svg/>" true false (by decide)⟩

/-- Claim C6: the error message starts empty, and after any step it is
non-empty exactly when that step performed a failing export attempt; in
particular every edit clears it regardless of the new text. -/
theorem c6_error_message_invariant :
    initState.error = ""
    ∧ (∀ (s : AppState) (a : Action),
        (((step s a).1.error ≠ "") ↔ stepFailed s a = true))
    ∧ (∀ (s : AppState) (t : String),
        (step s (Action.edit t)).1.error = "") := by
  refine ⟨rfl, ?_, ?_⟩
  · intro s a
    cases a with
    | edit t => simp [step, stepFailed]
    | paste t =>
        simpa [step, stepFailed] using downloadSvg_error_iff_not_ok t true false
    | manualDownload =>
        simpa [step, stepFailed] using
          downloadSvg_error_iff_not_ok s.svgCode true false
  · intro s t
    simp [step]

/-- Claim C7: a manual-download step, successful or failing, leaves the
markup unchanged, so re-rendering after it yields the same output, and
the renderer passes any markup through with no validation gate. -/
theorem c7_export_preserves_markup_render :
    (∀ s : AppState, (step s Action.manualDownload).1.svgCode = s.svgCode)
    ∧ (∀ s : AppState,
        render (step s Action.manualDownload).1.svgCode = render s.svgCode)
    ∧ (∀ m : String, render m = m) := by
  refine ⟨?_, ?_, ?_⟩ <;> intro s <;> simp [step, render]

/-- Claim C8: the markup state starts as the default sample icon, and
every edit or paste replaces it wholesale by the new text. -/
theorem c8_markup_wholesale_replacement :
    initState.svgCode = defaultSvgCode
    ∧ (∀ (s : AppState) (t : String), (step s (Action.edit t)).1.svgCode = t)
    ∧ (∀ (s : AppState) (t : String),
        (step s (Action.paste t)).1.svgCode = t) := by
  refine ⟨rfl, ?_, ?_⟩ <;> intro s t <;> simp [step]

/-- Claim C9: when the pasted text is committed before the deferred check
runs, the deferred variant of the earlier revision and the direct variant
of the current revision pass the same text to the exporter for every
validator-accepted paste. -/
theorem c9_deferred_direct_same_text (clip : String)
    (h : downloadGuardRejects clip = false) :
    (deferredPasteCheck clip true false).1.map ExportOutcome.requested
      = (step initState (Action.paste clip)).2.map ExportOutcome.requested
    ∧ (deferredPasteCheck clip true false).1.map ExportOutcome.requested
      = [clip] := by
  have hsw : jsStartsWith (jsTrim clip) "<svg" = true :=
    ((downloadGuardRejects_eq_false_iff clip).mp h).2
  constructor <;>
    simp [deferredPasteCheck, hsw, step, handleDownloadA_requested,
      downloadSvg_requested]

/-- Witness for claim C9 at the concrete input from the spec. -/
theorem c9_deferred_direct_same_text_witness :
    downloadGuardRejects "<svg><rect/></svg>" = false
    ∧ (deferredPasteCheck "<svg><rect/></svg>" true false).1.map
        ExportOutcome.requested = ["<svg><rect/></svg>"] :=
  ⟨by decide, (c9_deferred_direct_same_text "<svg><rect/></svg>" (by decide)).2⟩

/-- Claim C10: with the anchor absent, a validator-accepted export still
takes the success path — error cleared, URL allocated and released — but
triggers no save action. -/
theorem c10_absent_anchor_success_no_save (t : String) (c : Bool)
    (h : downloadGuardRejects t = false) :
    (downloadSvg t false c).ok = true
    ∧ (downloadSvg t false c).errorAfter = ""
    ∧ (downloadSvg t false c).urlAllocated = true
    ∧ (downloadSvg t false c).urlReleased = true
    ∧ (downloadSvg t false c).saves = [] := by
  simp [downloadSvg, h]

/-- Witness for claim C10 at a concrete input. -/
theorem c10_absent_anchor_success_no_save_witness :
    downloadGuardRejects "<svg><path/></svg>" = false
    ∧ ((downloadSvg "<svg><path/></svg>" false false).ok = true
      ∧ (downloadSvg "<svg><path/></svg>" false false).errorAfter = ""
      ∧ (downloadSvg "<svg><path/></svg>" false false).urlAllocated = true
      ∧ (downloadSvg "<svg><path/></svg>" false false).urlReleased = true
      ∧ (downloadSvg "<svg><path/></svg>" false false).saves = []) :=
  ⟨by decide,
    c10_absent_anchor_success_no_save "<svg><path/></svg>" false (by decide)⟩

end SvgDownloader
